import Mathlib

/-!
Verification development for the vite-react-mcp plugin.

The definitions below are a shallow embedding of the three source files of
the repository: the browser overlay (tool installation, commit ingestion via
`onCommitFiberRoot`, and the `import.meta.hot` event handlers), the MCP
server (`initMcpServer` tool dispatcher) and the Vite middleware
(`instrumentViteDevServer`, the `/sse` and `/messages` handlers).

Machine values are modelled as `Nat`/`Int`/`String`; fallible code returns
`Except`; the JavaScript event loop's broadcast pipe is modelled as explicit
event lists; stateful code is explicit state passing.
-/

set_option autoImplicit false

namespace ViteReactMcp

/-- A minimal JSON value model for the argument payloads exchanged between
the MCP dispatcher and the browser overlay. Arrays are not needed by any
payload in scope. -/
inductive Json where
  | null : Json
  | bool (b : Bool) : Json
  | num (n : Int) : Json
  | str (s : String) : Json
  | obj (fields : List (String × Json)) : Json

/-- Field lookup on a JSON object; `none` on non-objects, mirroring
JavaScript property access on a parsed value. -/
def Json.getField : Json → String → Option Json
  | .obj fields, k => fields.lookup k
  | _, _ => none

/-! ## Browser overlay: tool installation (`init`, src/src/overlay.ts:12-29) -/

/-- The key under which the browser tool surface is installed,
`__VITE_REACT_MCP_TOOLS__` from shared/const. -/
def VITE_REACT_MCP_TOOLS : String := "__VITE_REACT_MCP_TOOLS__"

/-- The four tool functions stored on the tools object, each modelled by the
name of the imported function bound to it (src/src/overlay.ts:18-23). -/
structure ToolsRecord where
  highlightComponent : String
  getComponentTree : String
  getComponentStates : String
  getUnnecessaryRenderedComponents : String
deriving DecidableEq, Repr

/-- A JavaScript property descriptor for the tools property: the value plus
the `writable` and `configurable` attributes passed to
`Object.defineProperty`. -/
structure PropertyDescriptor where
  value : ToolsRecord
  writable : Bool
  configurable : Bool
deriving DecidableEq, Repr

/-- The `target` object (the browser `window`), modelled as its own-property
table. -/
structure Target where
  props : List (String × PropertyDescriptor)
deriving DecidableEq, Repr

/-- `Object.hasOwn(target, key)`. -/
def Target.hasOwn (t : Target) (k : String) : Bool :=
  (t.props.lookup k).isSome

/-- `Object.defineProperty(target, key, descriptor)`: installs or replaces
the descriptor for `key`. -/
def Target.defineProperty (t : Target) (k : String) (d : PropertyDescriptor) : Target :=
  ⟨(k, d) :: t.props.filter (fun p => p.1 != k)⟩

/-- JavaScript assignment `target[key] = v`: on a non-writable own property
the assignment has no effect (silently ignored in sloppy mode, TypeError in
strict mode — either way the stored value is unchanged); on a writable
property it overwrites the value; on a missing property it creates a
writable, configurable one. -/
def Target.assign (t : Target) (k : String) (v : ToolsRecord) : Target :=
  match t.props.lookup k with
  | some d =>
    if d.writable then t.defineProperty k ⟨v, d.writable, d.configurable⟩ else t
  | none => t.defineProperty k ⟨v, true, true⟩

/-- The value installed by `init`: the four tools, bound to the imported
functions `highlightComponent`, `getComponentTree`, `getComponentStates`
and `queryWastedRender` (src/src/overlay.ts:18-23). -/
def toolsValue : ToolsRecord :=
  ⟨"highlightComponent", "getComponentTree", "getComponentStates", "queryWastedRender"⟩

/-- `init` (src/src/overlay.ts:12-27): returns unchanged if the target
already owns `__VITE_REACT_MCP_TOOLS__`; otherwise defines the property
with `writable: false, configurable: true`. -/
def init (t : Target) : Target :=
  if t.hasOwn VITE_REACT_MCP_TOOLS then t
  else t.defineProperty VITE_REACT_MCP_TOOLS ⟨toolsValue, false, true⟩

/-! ## Commit ingestion (`onCommitFiberRoot`, src/src/overlay.ts:39-53) -/

/-- The render phase reported by `bippy.traverseRenderedFibers` for each
fiber of a commit. -/
inductive Phase where
  | mount
  | update
deriving DecidableEq, Repr

/-- One classified entry of a commit: the fiber (by id), its phase, and the
derived wasted flag. -/
structure CommitEntry where
  fiber : Nat
  phase : Phase
  wasted : Bool
deriving DecidableEq, Repr

/-- The traversal callback of `onCommitFiberRoot`
(src/src/overlay.ts:46-50): `collectUnnecessaryRender` — the wasted-render
detector, whose verdict is the parameter since its code lives in
core/tools/track_wasted_render.js — is invoked only when `phase ===
'update'`; a mount-phase fiber is never classified, so its `wasted` flag
keeps its `false` default. -/
def traverseRenderedFibers (collectUnnecessaryRender : Nat → Bool)
    (fibers : List (Nat × Phase)) : List CommitEntry :=
  fibers.map (fun f =>
    ⟨f.1, f.2, if f.2 = Phase.update then collectUnnecessaryRender f.1 else false⟩)

/-- The mutable module state used by `onCommitFiberRoot`: the
`fiberRoots` map (renderId to set of roots, the set as a duplicate-free
list) and the store's `currentCommitFrameId` counter. -/
structure OverlayState where
  fiberRoots : List (Nat × List Nat)
  currentCommitFrameId : Nat
deriving DecidableEq, Repr

/-- One commit notification delivered by the instrumentation hook: the
render id, the root, and the rendered fibers with their phases. -/
structure CommitInput where
  renderId : Nat
  root : Nat
  fibers : List (Nat × Phase)
deriving DecidableEq, Repr

/-- Adding `root` to the root set of `renderId`
(src/src/overlay.ts:40-44): if the map has the render id, the root is added
to its set; otherwise a fresh singleton set is stored. -/
def addFiberRoot (m : List (Nat × List Nat)) (renderId root : Nat) :
    List (Nat × List Nat) :=
  match m.lookup renderId with
  | some roots =>
    (renderId, if root ∈ roots then roots else roots ++ [root])
      :: m.filter (fun p => p.1 != renderId)
  | none => (renderId, [root]) :: m

/-- `onCommitFiberRoot` (src/src/overlay.ts:39-53): records the root,
classifies the rendered fibers, and increments `currentCommitFrameId`.
Returns the new state, the commit frame id assigned to this commit (the
counter value at ingestion time) and the classified entries. -/
def onCommitFiberRoot (collectUnnecessaryRender : Nat → Bool)
    (c : CommitInput) (s : OverlayState) :
    OverlayState × Nat × List CommitEntry :=
  let entries := traverseRenderedFibers collectUnnecessaryRender c.fibers
  (⟨addFiberRoot s.fiberRoots c.renderId c.root, s.currentCommitFrameId + 1⟩,
   s.currentCommitFrameId, entries)

/-- Runs a sequence of commit notifications through `onCommitFiberRoot`,
collecting the commit ids assigned, in arrival order. -/
def runCommits (collectUnnecessaryRender : Nat → Bool) (s : OverlayState) :
    List CommitInput → OverlayState × List Nat
  | [] => (s, [])
  | c :: cs =>
    let step := onCommitFiberRoot collectUnnecessaryRender c s
    let rest := runCommits collectUnnecessaryRender step.1 cs
    (rest.1, step.2.1 :: rest.2)

/-! ## Correlator (Bridge)

The dispatcher in `initMcpServer` awaits each browser response through
`waitForEvent` (shared/node_util.js). Its code is not part of the overlay,
server or plugin sources, so the Correlator is modelled from the
specification. -/

/-- Modelled from the spec: the Correlator built on `waitForEvent`
(shared/node_util.js, absent from the sources at hand). Spec 4.3: calls of
the same `(session, requestKind)` are serialized by a per-kind FIFO — a
second call while one is `Sent` waits behind the first; a response event
resolves the head (oldest `Sent`) call of its kind; a response arriving with
no pending call of its kind is discarded. Per (session, kind) the state
keeps the FIFO of pending call ids; `resolved` maps a call id to the
payload it resolved with. -/
structure CorrState where
  queues : String × String → List Nat
  resolved : Nat → Option String

/-- The Correlator with no call pending and nothing resolved. -/
def corrInit : CorrState := ⟨fun _ => [], fun _ => none⟩

/-- An event of the Correlator model: a tool `call` issued on a session, or
a browser `respond` event of a given kind delivered to a session. -/
inductive CorrEvent where
  | call (session kind : String) (cid : Nat)
  | respond (session kind payload : String)

/-- Modelled from the spec: one Correlator transition. A `call` enqueues its
id on its (session, kind) FIFO; a `respond` resolves the head of its FIFO
with the payload, or is discarded when no call of that kind is pending. -/
def corrStep (st : CorrState) : CorrEvent → CorrState
  | .call s k cid =>
    { st with
      queues := fun key => if key = (s, k) then st.queues (s, k) ++ [cid] else st.queues key }
  | .respond s k payload =>
    match st.queues (s, k) with
    | [] => st
    | c :: rest =>
      { queues := fun key => if key = (s, k) then rest else st.queues key,
        resolved := fun cid => if cid = c then some payload else st.resolved cid }

/-- Runs a list of Correlator events from a state. -/
def corrRun (st : CorrState) : List CorrEvent → CorrState
  | [] => st
  | e :: es => corrRun (corrStep st e) es

/-- The outcome a Correlator call resolves with: a response payload, or a
timeout error (carrying the spec's retryable flag). -/
inductive CallOutcome where
  | resolved (payload : String)
  | timeoutError (retryable : Bool)
deriving DecidableEq, Repr

/-- Modelled from the spec: timeout behaviour of a single Correlator call
issued at time 0 with deadline `timeout` (`waitForEvent` of
shared/node_util.js is absent from the sources at hand). `response` is the
arrival time and payload of the matching browser response, if any ever
arrives. `callStatusAt timeout response t` is the call's status as observed
at time `t`: `none` while still pending, otherwise the outcome. The call
resolves with the response if it arrives before the deadline, and with a
retryable `timeoutError` once the deadline has passed. -/
def callStatusAt (timeout : Nat) (response : Option (Nat × String)) (t : Nat) :
    Option CallOutcome :=
  match response with
  | some r =>
    if r.1 < timeout ∧ r.1 ≤ t then some (.resolved r.2)
    else if timeout ≤ t then some (.timeoutError true) else none
  | none => if timeout ≤ t then some (.timeoutError true) else none

/-! ## Browser overlay: `import.meta.hot` event handlers
(`setupMcpToolsHandler`, src/src/overlay.ts:56-167) -/

/-- The response string built by the `highlight-component` hot handler
(src/src/overlay.ts:72-83). `result` is the outcome of the call to
`target.__VITE_REACT_MCP_TOOLS__.highlightComponent` (its code lives in
core/tools/component_highlighter.js): the list of matched components on
success, the thrown message on failure. The response starts as
`Action failed` and is replaced only when at least one component was
highlighted, or by `Error: <message>` when the tool threw. -/
def highlightComponentResponse (result : Except String (List Nat)) : String :=
  match result with
  | .ok components =>
    if components.length > 0 then
      "Found and highlighted " ++ toString components.length ++ " components"
    else "Action failed"
  | .error message => "Error: " ++ message

/-- `JSON.stringify({ error: message })`, the error payload built at
src/src/overlay.ts:159. -/
def jsonErrorPayload (message : String) : String :=
  "\x7b\"error\":\"" ++ message ++ "\"\x7d"

/-- The `get-unnecessary-rerenders` hot handler (src/src/overlay.ts:133-163)
after argument handling: `parsed` is the outcome of `JSON.parse(data)` (a
parse failure is re-thrown, so no event is sent) and `serialized` the
outcome of `JSON.stringify(wastedRenders)` on the browser-side tool result
(`JSON.stringify` may throw, e.g. on cyclic values). The handler returns
the events sent over `hot.send`: on a serialization failure it still sends
exactly one `get-unnecessary-rerenders-response` event, whose payload is
`JSON.stringify({ error: message })`. -/
def onGetUnnecessaryRerendersHot (parsed : Except String Json)
    (serialized : Except String String) : Except String (List (String × String)) :=
  match parsed with
  | .error message => .error message
  | .ok _ =>
    let response :=
      match serialized with
      | .ok s => s
      | .error message => jsonErrorPayload message
    .ok [("get-unnecessary-rerenders-response", response)]

/-! ## MCP tool dispatcher (`initMcpServer`, src/src/overlay.ts:260-395)

The zod schemas live in mcp/schema.js, which is not among the sources at
hand, so the argument shapes are modelled from spec 4.5. The dispatcher
structure (parse, then `ws.send`, then await the response) is from the
source. -/

/-- Parsed arguments of `highlight-component`. -/
structure HighlightComponentArgs where
  componentName : String
deriving DecidableEq, Repr

/-- Parsed arguments of `get-component-tree`. -/
structure GetComponentTreeArgs where
  allComponents : Bool
  debugMode : Bool
deriving DecidableEq, Repr

/-- Parsed arguments of `get-component-states`. -/
structure GetComponentStatesArgs where
  componentName : String
deriving DecidableEq, Repr

/-- Parsed arguments of `get-unnecessary-rerenders`. -/
structure GetUnnecessaryRerendersArgs where
  timeframe : Option Int
  allComponents : Bool
  debugMode : Bool
deriving DecidableEq, Repr

/-- Modelled from the spec: `HighlightComponentSchema.parse` (mcp/schema.js,
absent from the sources at hand) — spec 4.5:
`componentName: non-empty string`. -/
def HighlightComponentSchema.parse (j : Json) :
    Except String HighlightComponentArgs :=
  match j.getField "componentName" with
  | some (.str s) =>
    if s.isEmpty then .error "componentName must be a non-empty string"
    else .ok ⟨s⟩
  | _ => .error "componentName must be a string"

/-- Reads an optional boolean field, defaulting to `false`; any non-boolean
present value is a shape error. -/
def Json.getBoolField (j : Json) (k : String) : Except String Bool :=
  match j.getField k with
  | some (.bool b) => .ok b
  | none => .ok false
  | some _ => .error (k ++ " must be a boolean")

/-- Modelled from the spec: `GetComponentTreeSchema.parse` (mcp/schema.js,
absent from the sources at hand) — spec 4.5:
`options: allComponents: bool, debugMode: bool`. -/
def GetComponentTreeSchema.parse (j : Json) :
    Except String GetComponentTreeArgs :=
  match j.getBoolField "allComponents" with
  | .error e => .error e
  | .ok allComponents =>
    match j.getBoolField "debugMode" with
    | .error e => .error e
    | .ok debugMode => .ok ⟨allComponents, debugMode⟩

/-- Modelled from the spec: `GetComponentStatesSchema.parse` (mcp/schema.js,
absent from the sources at hand) — spec 4.5:
`componentName: non-empty string`. -/
def GetComponentStatesSchema.parse (j : Json) :
    Except String GetComponentStatesArgs :=
  match j.getField "componentName" with
  | some (.str s) =>
    if s.isEmpty then .error "componentName must be a non-empty string"
    else .ok ⟨s⟩
  | _ => .error "componentName must be a string"

/-- Modelled from the spec: `GetUnnecessaryRerendersSchema.parse`
(mcp/schema.js, absent from the sources at hand) — spec 4.5:
`timeframeSeconds?: positive number, allComponents: bool,
debugMode: bool`. -/
def GetUnnecessaryRerendersSchema.parse (j : Json) :
    Except String GetUnnecessaryRerendersArgs :=
  match j.getField "timeframe" with
  | some (.num n) =>
    if n ≤ 0 then .error "timeframe must be a positive number"
    else
      match j.getBoolField "allComponents" with
      | .error e => .error e
      | .ok allComponents =>
        match j.getBoolField "debugMode" with
        | .error e => .error e
        | .ok debugMode => .ok ⟨some n, allComponents, debugMode⟩
  | none =>
    match j.getBoolField "allComponents" with
    | .error e => .error e
    | .ok allComponents =>
      match j.getBoolField "debugMode" with
      | .error e => .error e
      | .ok debugMode => .ok ⟨none, allComponents, debugMode⟩
  | some _ => .error "timeframe must be a number"

/-- `JSON.stringify` of parsed `highlight-component` arguments. -/
def HighlightComponentArgs.stringify (a : HighlightComponentArgs) : String :=
  "\x7b\"componentName\":\"" ++ a.componentName ++ "\"\x7d"

/-- `JSON.stringify` of a boolean. -/
def boolStringify (b : Bool) : String := if b then "true" else "false"

/-- `JSON.stringify` of parsed `get-component-tree` arguments. -/
def GetComponentTreeArgs.stringify (a : GetComponentTreeArgs) : String :=
  "\x7b\"allComponents\":" ++ boolStringify a.allComponents ++
    ",\"debugMode\":" ++ boolStringify a.debugMode ++ "\x7d"

/-- `JSON.stringify` of parsed `get-component-states` arguments. -/
def GetComponentStatesArgs.stringify (a : GetComponentStatesArgs) : String :=
  "\x7b\"componentName\":\"" ++ a.componentName ++ "\"\x7d"

/-- `JSON.stringify` of parsed `get-unnecessary-rerenders` arguments. -/
def GetUnnecessaryRerendersArgs.stringify (a : GetUnnecessaryRerendersArgs) : String :=
  (match a.timeframe with
   | some n => "\x7b\"timeframe\":" ++ toString n ++ ","
   | none => "\x7b") ++
  "\"allComponents\":" ++ boolStringify a.allComponents ++
    ",\"debugMode\":" ++ boolStringify a.debugMode ++ "\x7d"

/-- The observable outcome of one `CallToolRequestSchema` dispatch: the
broadcast events published through `viteDevServer.ws.send` (event name and
JSON payload), and the result handed back to the client — `ok` carries the
text content of the tool result, `error` the thrown message. -/
structure ToolCallOutcome where
  events : List (String × String)
  result : Except String String
deriving Repr

/-- The `CallToolRequestSchema` handler of `initMcpServer`
(src/src/overlay.ts:303-392). `browserData` is the payload of the awaited
`<tool>-response` event (the `waitForEvent` result). Each case first parses
the arguments with its schema — a parse failure is caught at
src/src/overlay.ts:385-388 and surfaced as an `Invalid input:` error with
no event published — and only then publishes the single broadcast event
with the serialized arguments, awaiting the response. An unknown name
throws `Unknown tool: <name>` without publishing. -/
def callToolHandler (browserData : String) (name : String) (args : Json) :
    ToolCallOutcome :=
  match name with
  | "highlight-component" =>
    match HighlightComponentSchema.parse args with
    | .error e => ⟨[], .error ("Invalid input: " ++ e)⟩
    | .ok a => ⟨[("highlight-component", a.stringify)], .ok browserData⟩
  | "get-component-tree" =>
    match GetComponentTreeSchema.parse args with
    | .error e => ⟨[], .error ("Invalid input: " ++ e)⟩
    | .ok a => ⟨[("get-component-tree", a.stringify)], .ok browserData⟩
  | "get-component-states" =>
    match GetComponentStatesSchema.parse args with
    | .error e => ⟨[], .error ("Invalid input: " ++ e)⟩
    | .ok a => ⟨[("get-component-states", a.stringify)], .ok browserData⟩
  | "get-unnecessary-rerenders" =>
    match GetUnnecessaryRerendersSchema.parse args with
    | .error e => ⟨[], .error ("Invalid input: " ++ e)⟩
    | .ok a => ⟨[("get-unnecessary-rerenders", a.stringify)], .ok browserData⟩
  | other => ⟨[], .error ("Unknown tool: " ++ other)⟩

/-! ## Session transport middleware
(`instrumentViteDevServer`, src/src/overlay.ts:397-471) -/

/-- The status of a waiter awaiting a browser response event. -/
inductive PendingStatus where
  | waiting
  | cancelled
deriving DecidableEq, Repr

/-- One in-flight request: the session that issued it, the tool kind, and
whether its caller is still waiting or was rejected with a cancellation
error. -/
structure PendingRequest where
  session : String
  kind : String
  status : PendingStatus
deriving DecidableEq, Repr

/-- The server-side bridge state: the `transports` map of
`instrumentViteDevServer` (as the list of registered session ids) together
with the in-flight requests awaiting browser responses. -/
structure BridgeState where
  transports : List String
  pending : List PendingRequest
deriving DecidableEq, Repr

/-- The `/sse` handler's registration step (src/src/overlay.ts:425-426):
`transports.set(transport.sessionId, transport)`. -/
def onSseConnect (sessionId : String) (s : BridgeState) : BridgeState :=
  { s with transports := sessionId :: s.transports }

/-- The connection-close handler registered at src/src/overlay.ts:427-429:
`res.on('close', () => transports.delete(transport.sessionId))`. The
body deletes the transport from the map and does nothing else — in
particular it never touches the waiters awaiting browser responses. -/
def onConnectionClose (sessionId : String) (s : BridgeState) : BridgeState :=
  { s with transports := s.transports.filter (fun t => t != sessionId) }

/-- The response of the `/messages` middleware: an HTTP status sent by an
early return, or delegation to `transport.handlePostMessage`. -/
inductive MessagesOutcome where
  | status (code : Nat)
  | delegated (sessionId : String)
deriving DecidableEq, Repr

/-- The `/messages` middleware (src/src/overlay.ts:433-466): `OPTIONS`
returns 204; any other non-`POST` method returns 405; a missing (or empty)
`sessionId` query parameter returns 400; an unregistered `sessionId`
returns 404; otherwise the request is delegated to the transport's
`handlePostMessage`. The transports registry is returned unchanged — the
middleware never mutates it. -/
def messagesHandler (method : String) (sessionId : Option String)
    (transports : List String) : MessagesOutcome × List String :=
  if method = "OPTIONS" then (.status 204, transports)
  else if method ≠ "POST" then (.status 405, transports)
  else
    match sessionId with
    | none => (.status 400, transports)
    | some clientId =>
      if clientId.isEmpty then (.status 400, transports)
      else if transports.contains clientId then (.delegated clientId, transports)
      else (.status 404, transports)

/-- A concrete bridge state for the connection-close analysis: one
registered session `s1` with one still-waiting `get-unnecessary-rerenders`
request. -/
def closeExampleState : BridgeState :=
  ⟨["s1"], [⟨"s1", "get-unnecessary-rerenders", .waiting⟩]⟩

/-- A target with no own properties, for exercising `init`. -/
def emptyTarget : Target := ⟨[]⟩

/-- The spec's claimed result shape for `highlightComponent`, rendered as a
JSON string: spec 4.5 `highlightComponent(componentName) ->
(highlightedCount: integer)`. Stated from the spec's words, to be compared
with the response the source actually builds. -/
def specHighlightedCountRecord (n : Int) : String :=
  "\x7b\"highlightedCount\":" ++ toString n ++ "\x7d"

/-! ## Theorems -/

/-- Claim C1: for every session and tool kind, a second Correlator call of
the same (session, requestKind) issued while an earlier one is still
awaiting its response waits behind the first and never resolves with the
response event produced for the first call; two back-to-back
get-unnecessary-rerenders calls each resolve only with their own dedicated
response event. In the model: after call 1, call 2 and one response, call 1
is resolved with that response, call 2 is still queued and unresolved, and
call 2 resolves exactly with the second response. -/
theorem correlator_serializes_same_kind_calls (s k p1 p2 : String) :
    (corrRun corrInit [.call s k 1, .call s k 2, .respond s k p1]).resolved 1 = some p1 ∧
    (corrRun corrInit [.call s k 1, .call s k 2, .respond s k p1]).resolved 2 = none ∧
    (corrRun corrInit [.call s k 1, .call s k 2, .respond s k p1]).queues (s, k) = [2] ∧
    (corrRun corrInit
      [.call s k 1, .call s k 2, .respond s k p1, .respond s k p2]).resolved 2 = some p2 := by
  refine ⟨?_, ?_, ?_, ?_⟩ <;> simp [corrRun, corrStep, corrInit]

/-- The commit ids assigned by a run of commit notifications are the
consecutive integers starting at the initial counter value. -/
theorem commitIds_eq_range' (collectUnnecessaryRender : Nat → Bool) :
    ∀ (cs : List CommitInput) (s : OverlayState),
      (runCommits collectUnnecessaryRender s cs).2 =
        List.range' s.currentCommitFrameId cs.length
  | [], _ => rfl
  | c :: cs, s => by
    have ih := commitIds_eq_range' collectUnnecessaryRender cs
      ⟨addFiberRoot s.fiberRoots c.renderId c.root, s.currentCommitFrameId + 1⟩
    simp [runCommits, onCommitFiberRoot, List.range'_succ, ih]

/-- Claim C2: for every sequence of commit-ingestion calls
(`onCommitFiberRoot`), the commit ids assigned are strictly increasing
integers whose total order equals the arrival order: the id list, in
arrival order, is the consecutive range from the starting counter and is
strictly increasing. -/
theorem commit_ids_strictly_increasing_in_arrival_order
    (collectUnnecessaryRender : Nat → Bool) (s : OverlayState)
    (cs : List CommitInput) :
    (runCommits collectUnnecessaryRender s cs).2 =
      List.range' s.currentCommitFrameId cs.length ∧
    List.Pairwise (· < ·) (runCommits collectUnnecessaryRender s cs).2 := by
  have h := commitIds_eq_range' collectUnnecessaryRender cs s
  refine ⟨h, ?_⟩
  rw [h]
  exact List.pairwise_lt_range' s.currentCommitFrameId cs.length

/-- Claim C3: during a commit, waste classification
(`collectUnnecessaryRender`) runs only for fibers whose phase is update, so
every commit entry with phase mount has `wasted = false`. -/
theorem mount_phase_never_classified (collectUnnecessaryRender : Nat → Bool)
    (fibers : List (Nat × Phase)) (e : CommitEntry)
    (hmem : e ∈ traverseRenderedFibers collectUnnecessaryRender fibers)
    (hmount : e.phase = Phase.mount) : e.wasted = false := by
  unfold traverseRenderedFibers at hmem
  rcases List.mem_map.mp hmem with ⟨f, _, rfl⟩
  simp_all

/-- Witness for C3 at a concrete input: a mount-phase fiber classified by a
detector that would mark everything wasted still yields `wasted = false`. -/
theorem mount_phase_never_classified_witness :
    (⟨5, Phase.mount, false⟩ : CommitEntry) ∈
      traverseRenderedFibers (fun _ => true) [(5, Phase.mount)] ∧
    (⟨5, Phase.mount, false⟩ : CommitEntry).wasted = false :=
  ⟨by decide,
   mount_phase_never_classified (fun _ => true) [(5, Phase.mount)]
     ⟨5, Phase.mount, false⟩ (by decide) rfl⟩

/-- Claim C4: for every tool-call request whose arguments fail the named
tool's schema, the dispatcher returns a validation error and publishes zero
broadcast events — parsing strictly precedes any `ws.send`. Stated for each
of the four tools. -/
theorem invalid_args_publish_no_events (browserData e : String) (args : Json) :
    (HighlightComponentSchema.parse args = .error e →
      callToolHandler browserData "highlight-component" args =
        ⟨[], .error ("Invalid input: " ++ e)⟩) ∧
    (GetComponentTreeSchema.parse args = .error e →
      callToolHandler browserData "get-component-tree" args =
        ⟨[], .error ("Invalid input: " ++ e)⟩) ∧
    (GetComponentStatesSchema.parse args = .error e →
      callToolHandler browserData "get-component-states" args =
        ⟨[], .error ("Invalid input: " ++ e)⟩) ∧
    (GetUnnecessaryRerendersSchema.parse args = .error e →
      callToolHandler browserData "get-unnecessary-rerenders" args =
        ⟨[], .error ("Invalid input: " ++ e)⟩) := by
  refine ⟨fun h => ?_, fun h => ?_, fun h => ?_, fun h => ?_⟩ <;>
    simp [callToolHandler, h]

/-- Witness for C4 at the spec's concrete input: arguments
(componentName: 123) for highlight-component fail validation and no bridge
event is published. -/
theorem invalid_args_publish_no_events_witness :
    HighlightComponentSchema.parse (Json.obj [("componentName", Json.num 123)]) =
      .error "componentName must be a string" ∧
    callToolHandler "resp" "highlight-component"
        (Json.obj [("componentName", Json.num 123)]) =
      ⟨[], .error ("Invalid input: " ++ "componentName must be a string")⟩ :=
  ⟨rfl,
   (invalid_args_publish_no_events "resp" "componentName must be a string"
     (Json.obj [("componentName", Json.num 123)])).1 rfl⟩

/-- Claim C5: a Correlator call with a configured timeout and no matching
browser response resolves with a retryable timeout error at or after the
deadline, and never earlier (it is still pending at every earlier time). -/
theorem call_times_out_at_deadline_never_earlier (timeout t : Nat) :
    (timeout ≤ t → callStatusAt timeout none t = some (.timeoutError true)) ∧
    (t < timeout → callStatusAt timeout none t = none) := by
  constructor
  · intro h; simp [callStatusAt, h]
  · intro h; simp [callStatusAt, Nat.not_le.mpr h]

/-- Witness for C5 at the spec's 1-second (1000 ms) scenario: the call is
still pending at 999 and resolved with the retryable timeout error at
1000. -/
theorem call_times_out_at_deadline_never_earlier_witness :
    callStatusAt 1000 none 1000 = some (.timeoutError true) ∧
    callStatusAt 1000 none 999 = none :=
  ⟨(call_times_out_at_deadline_never_earlier 1000 1000).1 (by decide),
   (call_times_out_at_deadline_never_earlier 1000 999).2 (by decide)⟩

/-- Counterexample to claim C6 at a concrete input: closing the connection
of session `s1`, which owns one waiting pending request, removes the
transport but leaves the pending request in status `waiting` — it is not
rejected with a cancellation error. -/
theorem connection_close_leaves_pending_waiting_cex :
    (onConnectionClose "s1" closeExampleState).transports = [] ∧
    (onConnectionClose "s1" closeExampleState).pending =
      [⟨"s1", "get-unnecessary-rerenders", .waiting⟩] ∧
    PendingStatus.waiting ≠ PendingStatus.cancelled := by
  refine ⟨by decide, rfl, by decide⟩

/-- Claim C6 as amended: when the underlying connection closes, the close
handler removes the session's transport from the registry and does nothing
else — the session's pending requests are left exactly as they were, so
waiting callers are not rejected with a cancellation error. -/
theorem connection_close_removes_transport_only (sessionId : String)
    (s : BridgeState) :
    (onConnectionClose sessionId s).transports =
      s.transports.filter (fun t => t != sessionId) ∧
    (onConnectionClose sessionId s).pending = s.pending :=
  ⟨rfl, rfl⟩

/-- Counterexample to claim C7 at a concrete input: an OPTIONS request to
/messages with no `sessionId` query parameter is answered with status 204,
not with the 400 the claim requires for every request missing
`sessionId`. -/
theorem messages_options_missing_sessionId_cex :
    (messagesHandler "OPTIONS" none []).1 = .status 204 ∧
    MessagesOutcome.status 204 ≠ .status 400 := by
  refine ⟨by decide, by decide⟩

/-- Claim C7 as amended, following the handler's check order: a method that
is neither POST nor OPTIONS gets 405 (OPTIONS itself gets 204); a POST with
missing `sessionId` gets 400; a POST with a non-empty `sessionId` that
names no registered session gets 404; in every such case the transports
registry is returned unchanged (no state mutation). -/
theorem messages_handler_status_codes (method : String)
    (sessionId : Option String) (transports : List String) :
    (method ≠ "POST" → method ≠ "OPTIONS" →
      messagesHandler method sessionId transports = (.status 405, transports)) ∧
    messagesHandler "OPTIONS" sessionId transports = (.status 204, transports) ∧
    messagesHandler "POST" none transports = (.status 400, transports) ∧
    (∀ clientId : String, clientId.isEmpty = false →
      transports.contains clientId = false →
      messagesHandler "POST" (some clientId) transports =
        (.status 404, transports)) := by
  refine ⟨fun h1 h2 => ?_, ?_, ?_, fun clientId h1 h2 => ?_⟩
  · simp [messagesHandler, h1, h2]
  · simp [messagesHandler]
  · simp [messagesHandler]
  · simp at h2
    simp [messagesHandler, h1, h2]

/-- Witness for C7 (amended) at concrete inputs: GET gets 405, OPTIONS gets
204, POST without sessionId gets 400, POST with unknown sessionId `xyz`
gets 404 with the (empty) registry unchanged. -/
theorem messages_handler_status_codes_witness :
    messagesHandler "GET" none [] = (.status 405, []) ∧
    messagesHandler "OPTIONS" none [] = (.status 204, []) ∧
    messagesHandler "POST" none [] = (.status 400, []) ∧
    messagesHandler "POST" (some "xyz") [] = (.status 404, []) :=
  ⟨(messages_handler_status_codes "GET" none []).1 (by decide) (by decide),
   (messages_handler_status_codes "OPTIONS" none []).2.1,
   (messages_handler_status_codes "POST" none []).2.2.1,
   (messages_handler_status_codes "POST" (some "xyz") []).2.2.2 "xyz"
     (by decide) (by decide)⟩

/-- Claim C8: when a get-unnecessary-rerenders request parses and its
browser-side tool execution succeeds but the result cannot be
JSON-serialized, the handler catches the failure and still sends exactly
one response event, whose payload is the error record
(error: message). -/
theorem serialization_failure_sends_single_error_payload (d : Json)
    (message : String) :
    onGetUnnecessaryRerendersHot (.ok d) (.error message) =
      .ok [("get-unnecessary-rerenders-response", jsonErrorPayload message)] :=
  rfl

/-- Counterexample to claim C9 at a concrete input: when the browser tool
highlights two components, the response sent back is the prose string
`Found and highlighted 2 components`, which is not the rendering of the
claimed (highlightedCount: 2) record. -/
theorem highlight_result_not_count_record_cex :
    highlightComponentResponse (.ok [7, 8]) = "Found and highlighted 2 components" ∧
    highlightComponentResponse (.ok [7, 8]) ≠ specHighlightedCountRecord 2 := by
  refine ⟨rfl, by decide⟩

/-- Claim C9 as amended: for a highlightComponent call, the result returned
to the client is a human-readable text message — `Found and highlighted N
components` when N components were highlighted (N > 0), `Action failed`
when none were, and `Error: <message>` when the browser tool threw — not a
(highlightedCount: integer) record. -/
theorem highlight_response_is_text_message (components : List Nat)
    (message : String) :
    (components ≠ [] →
      highlightComponentResponse (.ok components) =
        "Found and highlighted " ++ toString components.length ++ " components") ∧
    highlightComponentResponse (.ok []) = "Action failed" ∧
    highlightComponentResponse (.error message) = "Error: " ++ message := by
  refine ⟨fun h => ?_, rfl, rfl⟩
  simp [highlightComponentResponse, List.length_pos.mpr h]

/-- Witness for C9 (amended) at concrete inputs. -/
theorem highlight_response_is_text_message_witness :
    ([7, 8] : List Nat) ≠ [] ∧
    highlightComponentResponse (.ok [7, 8]) =
      "Found and highlighted " ++ toString ([7, 8] : List Nat).length ++ " components" ∧
    highlightComponentResponse (.error "boom") = "Error: " ++ "boom" :=
  ⟨by decide,
   (highlight_response_is_text_message [7, 8] "boom").1 (by decide),
   (highlight_response_is_text_message [7, 8] "boom").2.2⟩

/-- Claim C10: installing the browser tool surface is idempotent — if the
target already owns `__VITE_REACT_MCP_TOOLS__`, `init` returns it
unchanged; when `init` does install the property it is non-writable, so a
later assignment of the tools object has no effect. -/
theorem init_idempotent_and_tools_nonwritable (t : Target) (v : ToolsRecord) :
    (t.hasOwn VITE_REACT_MCP_TOOLS = true → init t = t) ∧
    (t.hasOwn VITE_REACT_MCP_TOOLS = false →
      (init t).props.lookup VITE_REACT_MCP_TOOLS = some ⟨toolsValue, false, true⟩ ∧
      Target.assign (init t) VITE_REACT_MCP_TOOLS v = init t) := by
  constructor
  · intro h; simp [init, h]
  · intro h
    have hinit : init t =
        t.defineProperty VITE_REACT_MCP_TOOLS ⟨toolsValue, false, true⟩ := by
      simp [init, h]
    have hlookup : (init t).props.lookup VITE_REACT_MCP_TOOLS =
        some ⟨toolsValue, false, true⟩ := by
      rw [hinit]; simp [Target.defineProperty, List.lookup]
    refine ⟨hlookup, ?_⟩
    simp [Target.assign, hlookup]

/-- Witness for C10 at concrete inputs: installing on an empty target
yields the non-writable tools property, a subsequent assignment is a
no-op, and a second `init` leaves the target unchanged. -/
theorem init_idempotent_and_tools_nonwritable_witness :
    (init emptyTarget).props.lookup VITE_REACT_MCP_TOOLS =
      some ⟨toolsValue, false, true⟩ ∧
    Target.assign (init emptyTarget) VITE_REACT_MCP_TOOLS
      ⟨"a", "b", "c", "d"⟩ = init emptyTarget ∧
    init (init emptyTarget) = init emptyTarget := by
  have h1 := (init_idempotent_and_tools_nonwritable emptyTarget
    ⟨"a", "b", "c", "d"⟩).2 (by decide)
  have h2 := (init_idempotent_and_tools_nonwritable (init emptyTarget)
    ⟨"a", "b", "c", "d"⟩).1 (by decide)
  exact ⟨h1.1, h1.2, h2⟩

end ViteReactMcp
